import Mathlib

/-!
Shallow embedding of the hawkular-apm-opentracing-javascript tracer core
(`src/lib/APMTracer.js`) and of the collaborator interfaces it relies on.
JavaScript mutation is rendered as explicit state passing; the external id
generator is rendered as a counter threaded through the operations; calls
that can raise a JavaScript `TypeError` return `Except`.
-/

set_option autoImplicit false

/-- Opaque scalar values that travel through carriers and contexts.
`id n` stands for an identifier minted by the id generator; `str s` is an
ordinary string value.  JavaScript truthiness on these values: every id is
truthy (ids are nonempty strings in the implementation), a string is truthy
iff it is nonempty. -/
inductive JsVal where
  | id : Nat → JsVal
  | str : String → JsVal
deriving DecidableEq, Repr

/-- JavaScript truthiness of a `JsVal`. -/
def JsVal.truthy : JsVal → Bool
  | .id _ => true
  | .str s => !s.isEmpty

/-- JavaScript truthiness of a possibly-undefined value (`none` = undefined). -/
def jsTruthy : Option JsVal → Bool
  | none => false
  | some v => v.truthy

/-- Modelled from the spec: the id generator collaborator (`utils.generateSpanId`)
produces fresh, globally-unique opaque identifiers; rendered as a counter state:
the minted id is the current counter and the counter advances. -/
def generateSpanId (g : Nat) : JsVal × Nat :=
  (JsVal.id g, g + 1)

/-- A carrier object: a flat string-keyed map rendered as an association list
in property-insertion order (JavaScript `Object.keys` order for string keys).
A binding to `none` models a property that is present but `undefined`. -/
abbrev JsCarrier := List (String × Option JsVal)

/-- JavaScript property read `c[k]`: an absent key and a key stored as
`undefined` both read as `undefined` (`none`). -/
def JsCarrier.getVal : JsCarrier → String → Option JsVal
  | [], _ => none
  | (k1, v) :: rest, k => if k1 = k then v else JsCarrier.getVal rest k

/-- JavaScript property write `c[k] = v`: overwrites an existing binding in
place, otherwise appends the key (insertion order preserved). -/
def JsCarrier.setVal : JsCarrier → String → Option JsVal → JsCarrier
  | [], k, v => [(k, v)]
  | (k1, v1) :: rest, k, v =>
      if k1 = k then (k, v) :: rest else (k1, v1) :: JsCarrier.setVal rest k v

/-- The possible JavaScript values a caller can pass where a carrier object is
expected: `null`, `undefined`, a number, or an actual object. -/
inductive CarrierV where
  | null
  | undef
  | num : Int → CarrierV
  | obj : JsCarrier → CarrierV
deriving DecidableEq, Repr

/-- JavaScript falsiness of a carrier argument (`!carrier`). -/
def CarrierV.jsFalsy : CarrierV → Bool
  | .null => true
  | .undef => true
  | .num n => n = 0
  | .obj _ => false

/-- `typeof carrier === 'object'`.  Note the JavaScript quirk:
`typeof null` is `'object'`. -/
def CarrierV.typeofObject : CarrierV → Bool
  | .null => true
  | .undef => false
  | .num _ => false
  | .obj _ => true

/-- A JavaScript runtime exception (the only kind this code can raise). -/
inductive JsErr where
  | typeError
deriving DecidableEq, Repr

/-- `Object.keys(carrier)` together with the per-key property reads of the
subsequent `forEach`: raises a `TypeError` on `null`/`undefined` (ES `ToObject`),
yields no entries on a number, and yields the object's entries in insertion
order. -/
def jsObjectEntries : CarrierV → Except JsErr JsCarrier
  | .null => .error .typeError
  | .undef => .error .typeError
  | .num _ => .ok []
  | .obj c => .ok c

/-- Modelled from the spec: the propagatable identity of a span
(`APMSpanContext`, not under `src/`): spanId, traceId, optional parent
lineage, optional transaction and level, and the consumer-side view of the
producer's correlation id, set only after extraction. -/
structure APMSpanContext where
  spanId : Option JsVal := none
  traceId : Option JsVal := none
  parentId : Option JsVal := none
  transaction : Option JsVal := none
  level : Option JsVal := none
  consumerCorrelationId : Option JsVal := none
deriving DecidableEq, Repr

/-- Modelled from the spec: recognized carrier key names for trace id,
correlation id, transaction and level (`constants.js`, not under `src/`).
They are upper-case strings, which is what makes the upper-casing key match in
extraction case-insensitive. -/
def CARRIER_TRACE_ID : String := "HWKAPMTRACEID"

/-- Modelled from the spec: carrier key for the correlation id. -/
def CARRIER_CORRELATION_ID : String := "HWKAPMID"

/-- Modelled from the spec: carrier key for the transaction. -/
def CARRIER_TRANSACTION : String := "HWKAPMTXN"

/-- Modelled from the spec: carrier key for the reporting level. -/
def CARRIER_LEVEL : String := "HWKAPMLEVEL"

/-- Modelled from the spec: the correlation-id scope used when tagging the
owning trace on inject (`constants.CORR_ID_SCOPE_INTERACTION`). -/
def CORR_ID_SCOPE_INTERACTION : String := "Interaction"

/-- The two carrier formats recognized by this tracer
(`opentracing` `FORMAT_HTTP_HEADERS`). -/
def FORMAT_HTTP_HEADERS : String := "http_headers"

/-- `opentracing` `FORMAT_TEXT_MAP`. -/
def FORMAT_TEXT_MAP : String := "text_map"

/-- Modelled from the spec: node types of trace nodes
(`constants.NODE_TYPE_PRODUCER` and friends, not under `src/`). -/
inductive NodeType where
  | producer
  | consumer
  | component
deriving DecidableEq, Repr

/-- The correlation information attached to a trace node on inject:
the value read from the carrier and its scope. -/
structure CorrelationIdInfo where
  value : Option JsVal
  scope : String
deriving DecidableEq, Repr

/-- A span's tag map.  JavaScript objects distinguish own properties from
prototype-inherited ones; the decorator's `hasOwnProperty` check consults only
the own part. -/
structure TagMap where
  own : List (String × String) := []
  proto : List (String × String) := []
deriving DecidableEq, Repr

/-- Association-list lookup used for tag maps. -/
def assocFind : List (String × String) → String → Option String
  | [], _ => none
  | (k1, v) :: rest, k => if k1 = k then some v else assocFind rest k

/-- Association-list update-or-append used for tag maps. -/
def assocSet : List (String × String) → String → String → List (String × String)
  | [], k, v => [(k, v)]
  | (k1, v1) :: rest, k, v =>
      if k1 = k then (k, v) :: rest else (k1, v1) :: assocSet rest k v

/-- `{}.hasOwnProperty.call(tags, k)`: membership in the own part only. -/
def TagMap.hasOwn (t : TagMap) (k : String) : Bool :=
  (assocFind t.own k).isSome

/-- The fields object passed to `startSpan` (the subset of properties the
documentation names). -/
structure FieldsObj where
  operationName : Option String := none
  childOf : Option APMSpanContext := none
  tags : List (String × String) := []
  startTime : Option Nat := none
deriving DecidableEq, Repr

/-- Modelled from the spec: the external span provider (`APMSpan`, not under
`src/`), constructible from the fields object; it exposes its operation name
and a tag map with get/set. -/
structure APMSpan where
  fields : FieldsObj := {}
  tags : TagMap := {}
deriving DecidableEq, Repr

/-- The span's operation name, taken from the fields it was constructed with. -/
def APMSpan.getOperationName (s : APMSpan) : Option String :=
  s.fields.operationName

/-- `span.setTag(k, v)` writes the own part of the tag map. -/
def APMSpan.setTag (s : APMSpan) (k v : String) : APMSpan :=
  { s with tags := { s.tags with own := assocSet s.tags.own k v } }

/-- Modelled from the spec: a trace node of the trace provider; carries an
optional span, an optional node type, the context the node was keyed by, and
optional correlation information. -/
structure TraceNode where
  span : Option APMSpan := none
  nodeType : Option NodeType := none
  context : Option APMSpanContext := none
  correlation : Option CorrelationIdInfo := none
deriving DecidableEq, Repr

/-- Modelled from the spec: the trace provider exposes an ordered node list
whose first element is the root. -/
structure Trace where
  nodes : List TraceNode := []
deriving DecidableEq, Repr

/-- Modelled from the spec: `trace.setNodeType(type, context, correlationInfo)`
appends a typed node keyed by (type, context, correlation info). -/
def Trace.setNodeType (t : Trace) (ty : NodeType) (ctx : APMSpanContext)
    (info : CorrelationIdInfo) : Trace :=
  { t with nodes :=
      t.nodes ++ [{ nodeType := some ty, context := some ctx, correlation := some info }] }

/-- The deployment metadata snapshot captured at tracer construction. -/
structure DeploymentMetaData where
  serviceName : Option String := none
  buildStamp : Option String := none
deriving DecidableEq, Repr

/-- Modelled from the spec: tag key for the service name
(`constants.PROP_SERVICE_NAME`). -/
def PROP_SERVICE_NAME : String := "service"

/-- Modelled from the spec: tag key for the build stamp
(`constants.PROP_BUILD_STAMP`). -/
def PROP_BUILD_STAMP : String := "buildStamp"

/-- JavaScript truthiness of an optional string (empty string is falsy). -/
def jsTruthyStr : Option String → Bool
  | none => false
  | some s => !s.isEmpty

/-- The tag-setting body of the `TRACE_DECORATOR` closure (`APMTracer.js`
lines 47-52), acting on the root span: sets the service-name and build-stamp
tags from the captured deployment metadata, each only when the metadata field
is truthy and the tag key is not already an own property of the span's tags. -/
def decorateSpan (deploymentMetaData : DeploymentMetaData) (span : APMSpan) : APMSpan :=
  let span1 :=
    if jsTruthyStr deploymentMetaData.serviceName
        && !span.tags.hasOwn PROP_SERVICE_NAME then
      span.setTag PROP_SERVICE_NAME (deploymentMetaData.serviceName.getD "")
    else span
  if jsTruthyStr deploymentMetaData.buildStamp
      && !span1.tags.hasOwn PROP_BUILD_STAMP then
    span1.setTag PROP_BUILD_STAMP (deploymentMetaData.buildStamp.getD "")
  else span1

/-- The `TRACE_DECORATOR` closure built in the `APMTracer` constructor
(`APMTracer.js` lines 39-54): looks at the first node only; a no-op when there
is no node or the root node has no span; otherwise applies `decorateSpan` to
the root node's span. -/
def traceDecorator (deploymentMetaData : DeploymentMetaData) (trace : Trace) : Trace :=
  match trace.nodes with
  | [] => trace
  | rootNode :: rest =>
    match rootNode.span with
    | none => trace
    | some span =>
      { nodes := { rootNode with span := some (decorateSpan deploymentMetaData span) } :: rest }

/-- `APMTracer.startSpan(name, fields)` (`APMTracer.js` lines 103-107): takes
`fields || {}`, assigns `name` to its `operationName` property, and constructs
the span from that object.  The second component of the result is the fields
object after the call; when the caller passed an object it is the caller's own
object, mutated. -/
def startSpan (name : String) (fields : Option FieldsObj) : APMSpan × FieldsObj :=
  let fieldsWithOperation := fields.getD {}
  let fieldsWithOperation := { fieldsWithOperation with operationName := some name }
  ({ fields := fieldsWithOperation }, fieldsWithOperation)

/-- A store of fields objects, making the aliasing in `startSpan` explicit: a
caller's reference to a fields object is an index into the store. -/
abbrev FieldsHeap := List FieldsObj

/-- `startSpan` where the caller passes a reference into a store of fields
objects; the store after the call shows the mutation through the caller's own
reference. -/
def startSpanOnHeap (name : String) (h : FieldsHeap) (i : Nat) : APMSpan × FieldsHeap :=
  match h.get? i with
  | some f =>
      let r := startSpan name (some f)
      (r.1, h.set i r.2)
  | none => ((startSpan name none).1, h)

/-- `APMTracer._injectHttpAndTextMap` (`APMTracer.js` lines 167-176): writes
the trace id, a freshly generated correlation id, and — only when truthy on the
context — the transaction and level. -/
def injectHttpAndTextMap (spanContext : APMSpanContext) (carrier : JsCarrier)
    (g : Nat) : JsCarrier × Nat :=
  let c1 := carrier.setVal CARRIER_TRACE_ID spanContext.traceId
  let idAndGen := generateSpanId g
  let c2 := c1.setVal CARRIER_CORRELATION_ID (some idAndGen.1)
  let c3 :=
    if jsTruthy spanContext.transaction then
      c2.setVal CARRIER_TRANSACTION spanContext.transaction
    else c2
  let c4 :=
    if jsTruthy spanContext.level then
      c3.setVal CARRIER_LEVEL spanContext.level
    else c3
  (c4, idAndGen.2)

/-- The result of an `inject` call: the carrier argument after the call, the
owning trace after the call, the id-generator state, and the diagnostics
emitted. -/
structure InjectOut where
  carrier : CarrierV
  trace : Trace
  gen : Nat
  log : List String
deriving DecidableEq, Repr

/-- `APMTracer.inject` (`APMTracer.js` lines 138-165): rejects falsy and
non-object carriers with a diagnostic before any mutation; dispatches
recognized formats to the codec and logs unknown ones; then unconditionally
tags the owning trace with a PRODUCER node keyed by the correlation-id value
read back from the carrier, with interaction scope.  (The `instanceof APMSpan`
normalization is not modelled: the argument here is already a context.) -/
def inject (spanContext : APMSpanContext) (trace : Trace) (format : String)
    (carrier : CarrierV) (g : Nat) : Except JsErr InjectOut :=
  if carrier.jsFalsy then
    .ok { carrier := carrier, trace := trace, gen := g,
          log := ["Carrier should not be null!"] }
  else if !carrier.typeofObject then
    .ok { carrier := carrier, trace := trace, gen := g,
          log := ["Carrier is not object!"] }
  else
    match carrier with
    | .obj c =>
      let step :
          JsCarrier × Nat × List String :=
        if format = FORMAT_HTTP_HEADERS ∨ format = FORMAT_TEXT_MAP then
          let r := injectHttpAndTextMap spanContext c g
          (r.1, r.2, [])
        else
          (c, g, ["Inject unknown format!"])
      let c1 := step.1
      let trace1 := trace.setNodeType NodeType.producer spanContext
        { value := c1.getVal CARRIER_CORRELATION_ID,
          scope := CORR_ID_SCOPE_INTERACTION }
      .ok { carrier := .obj c1, trace := trace1, gen := step.2.1, log := step.2.2 }
    | other =>
      .ok { carrier := other, trace := trace, gen := g, log := [] }

/-- JavaScript `String.prototype.toUpperCase()` on the ASCII strings this
protocol uses: upper-case each character. -/
def jsToUpper (s : String) : String :=
  String.mk (s.data.map Char.toUpper)

/-- The accumulator of the `forEach` loop in `_extractHttpAndTextMap`. -/
structure ExtractAcc where
  correlationId : Option JsVal := none
  traceId : Option JsVal := none
  level : Option JsVal := none
  transaction : Option JsVal := none
deriving DecidableEq, Repr

/-- One iteration of the `forEach` over the carrier's keys: upper-case the key
and record the value under the register it matches, ignoring everything else. -/
def extractStep (acc : ExtractAcc) (kv : String × Option JsVal) : ExtractAcc :=
  let u := jsToUpper kv.1
  if u = CARRIER_CORRELATION_ID then { acc with correlationId := kv.2 }
  else if u = CARRIER_TRACE_ID then { acc with traceId := kv.2 }
  else if u = CARRIER_TRANSACTION then { acc with transaction := kv.2 }
  else if u = CARRIER_LEVEL then { acc with level := kv.2 }
  else acc

/-- `APMTracer._extractHttpAndTextMap` (`APMTracer.js` lines 216-243): iterate
over the carrier's keys matching them case-insensitively, then build a context
with a freshly generated local spanId, the recovered traceId, transaction and
level, and the recovered correlation id as consumer correlation id.
`Object.keys` raises a `TypeError` on a `null`/`undefined` carrier. -/
def extractHttpAndTextMap (carrier : CarrierV) (g : Nat) :
    Except JsErr (APMSpanContext × Nat) :=
  match jsObjectEntries carrier with
  | .error e => .error e
  | .ok entries =>
    let acc := entries.foldl extractStep {}
    let idAndGen := generateSpanId g
    let spanContext : APMSpanContext :=
      { spanId := some idAndGen.1, traceId := acc.traceId, parentId := none,
        transaction := acc.transaction, level := acc.level,
        consumerCorrelationId := acc.correlationId }
    .ok (spanContext, idAndGen.2)

/-- The result of an `extract` call: the returned context (`none` would be a
`null`/`undefined` return), the id-generator state, and the diagnostics. -/
structure ExtractOut where
  ctx : Option APMSpanContext
  gen : Nat
  log : List String
deriving DecidableEq, Repr

/-- `APMTracer.extract` (`APMTracer.js` lines 200-214): recognized formats
delegate to the codec; an unrecognized format logs a diagnostic and returns a
fresh empty context rather than null. -/
def extract (format : String) (carrier : CarrierV) (g : Nat) :
    Except JsErr ExtractOut :=
  if format = FORMAT_HTTP_HEADERS ∨ format = FORMAT_TEXT_MAP then
    match extractHttpAndTextMap carrier g with
    | .error e => .error e
    | .ok r => .ok { ctx := some r.1, gen := r.2, log := [] }
  else
    .ok { ctx := some {}, gen := g, log := ["Extract unknown format"] }

/-! ### Association-list and carrier lemmas -/

theorem getVal_setVal (c : JsCarrier) (k k1 : String) (v : Option JsVal) :
    JsCarrier.getVal (JsCarrier.setVal c k v) k1 =
      if k1 = k then v else JsCarrier.getVal c k1 := by
  induction c with
  | nil =>
    by_cases h : k1 = k
    · subst h; simp [JsCarrier.setVal, JsCarrier.getVal]
    · have h3 : ¬k = k1 := fun hh => h hh.symm
      simp [JsCarrier.setVal, JsCarrier.getVal, h, h3]
  | cons kv rest ih =>
    obtain ⟨k2, v2⟩ := kv
    by_cases h2 : k2 = k
    · subst h2
      by_cases h : k1 = k2
      · subst h; simp [JsCarrier.setVal, JsCarrier.getVal]
      · have h3 : ¬k2 = k1 := fun hh => h hh.symm
        simp [JsCarrier.setVal, JsCarrier.getVal, h, h3]
    · by_cases h : k1 = k2
      · subst h
        simp [JsCarrier.setVal, JsCarrier.getVal, h2]
      · have h3 : ¬k2 = k1 := fun hh => h hh.symm
        simp [JsCarrier.setVal, JsCarrier.getVal, h2, h, h3, ih]

theorem assocFind_assocSet (l : List (String × String)) (k k1 v : String) :
    assocFind (assocSet l k v) k1 = if k1 = k then some v else assocFind l k1 := by
  induction l with
  | nil =>
    by_cases h : k1 = k
    · subst h; simp [assocSet, assocFind]
    · have h3 : ¬k = k1 := fun hh => h hh.symm
      simp [assocSet, assocFind, h, h3]
  | cons kv rest ih =>
    obtain ⟨k2, v2⟩ := kv
    by_cases h2 : k2 = k
    · subst h2
      by_cases h : k1 = k2
      · subst h; simp [assocSet, assocFind]
      · have h3 : ¬k2 = k1 := fun hh => h hh.symm
        simp [assocSet, assocFind, h, h3]
    · by_cases h : k1 = k2
      · subst h
        simp [assocSet, assocFind, h2]
      · have h3 : ¬k2 = k1 := fun hh => h hh.symm
        simp [assocSet, assocFind, h2, h, h3, ih]

/-! ### Lemmas about the inject codec -/

theorem injectHTM_gen (ctx : APMSpanContext) (c : JsCarrier) (g : Nat) :
    (injectHttpAndTextMap ctx c g).2 = g + 1 := rfl

theorem injectHTM_traceId (ctx : APMSpanContext) (c : JsCarrier) (g : Nat) :
    JsCarrier.getVal (injectHttpAndTextMap ctx c g).1 CARRIER_TRACE_ID = ctx.traceId := by
  unfold injectHttpAndTextMap
  by_cases h1 : jsTruthy ctx.transaction <;> by_cases h2 : jsTruthy ctx.level <;>
    simp [h1, h2, getVal_setVal, generateSpanId,
      CARRIER_TRACE_ID, CARRIER_CORRELATION_ID, CARRIER_TRANSACTION, CARRIER_LEVEL]

theorem injectHTM_correlationId (ctx : APMSpanContext) (c : JsCarrier) (g : Nat) :
    JsCarrier.getVal (injectHttpAndTextMap ctx c g).1 CARRIER_CORRELATION_ID
      = some (JsVal.id g) := by
  unfold injectHttpAndTextMap
  by_cases h1 : jsTruthy ctx.transaction <;> by_cases h2 : jsTruthy ctx.level <;>
    simp [h1, h2, getVal_setVal, generateSpanId,
      CARRIER_TRACE_ID, CARRIER_CORRELATION_ID, CARRIER_TRANSACTION, CARRIER_LEVEL]

theorem injectHTM_transaction_not_truthy (ctx : APMSpanContext) (c : JsCarrier) (g : Nat)
    (h : jsTruthy ctx.transaction = false) :
    JsCarrier.getVal (injectHttpAndTextMap ctx c g).1 CARRIER_TRANSACTION
      = JsCarrier.getVal c CARRIER_TRANSACTION := by
  unfold injectHttpAndTextMap
  by_cases h2 : jsTruthy ctx.level <;>
    simp [h, h2, getVal_setVal, generateSpanId,
      CARRIER_TRACE_ID, CARRIER_CORRELATION_ID, CARRIER_TRANSACTION, CARRIER_LEVEL]

theorem injectHTM_transaction_truthy (ctx : APMSpanContext) (c : JsCarrier) (g : Nat)
    (h : jsTruthy ctx.transaction = true) :
    JsCarrier.getVal (injectHttpAndTextMap ctx c g).1 CARRIER_TRANSACTION
      = ctx.transaction := by
  unfold injectHttpAndTextMap
  by_cases h2 : jsTruthy ctx.level <;>
    simp [h, h2, getVal_setVal, generateSpanId,
      CARRIER_TRACE_ID, CARRIER_CORRELATION_ID, CARRIER_TRANSACTION, CARRIER_LEVEL]

theorem injectHTM_level_not_truthy (ctx : APMSpanContext) (c : JsCarrier) (g : Nat)
    (h : jsTruthy ctx.level = false) :
    JsCarrier.getVal (injectHttpAndTextMap ctx c g).1 CARRIER_LEVEL
      = JsCarrier.getVal c CARRIER_LEVEL := by
  unfold injectHttpAndTextMap
  by_cases h1 : jsTruthy ctx.transaction <;>
    simp [h, h1, getVal_setVal, generateSpanId,
      CARRIER_TRACE_ID, CARRIER_CORRELATION_ID, CARRIER_TRANSACTION, CARRIER_LEVEL]

theorem injectHTM_level_truthy (ctx : APMSpanContext) (c : JsCarrier) (g : Nat)
    (h : jsTruthy ctx.level = true) :
    JsCarrier.getVal (injectHttpAndTextMap ctx c g).1 CARRIER_LEVEL = ctx.level := by
  unfold injectHttpAndTextMap
  by_cases h1 : jsTruthy ctx.transaction <;>
    simp [h, h1, getVal_setVal, generateSpanId,
      CARRIER_TRACE_ID, CARRIER_CORRELATION_ID, CARRIER_TRANSACTION, CARRIER_LEVEL]

/-- Unfolding of `inject` on a recognized format and an object carrier. -/
theorem inject_recognized_obj (ctx : APMSpanContext) (trace : Trace) (format : String)
    (c : JsCarrier) (g : Nat)
    (hf : format = FORMAT_HTTP_HEADERS ∨ format = FORMAT_TEXT_MAP) :
    inject ctx trace format (.obj c) g =
      .ok { carrier := .obj (injectHttpAndTextMap ctx c g).1,
            trace := trace.setNodeType NodeType.producer ctx
              { value := JsCarrier.getVal (injectHttpAndTextMap ctx c g).1
                  CARRIER_CORRELATION_ID,
                scope := CORR_ID_SCOPE_INTERACTION },
            gen := (injectHttpAndTextMap ctx c g).2, log := [] } := by
  rcases hf with hf | hf <;> subst hf <;>
    simp [inject, CarrierV.jsFalsy, CarrierV.typeofObject]

/-- C1: for every supported format (HTTP_HEADERS, TEXT_MAP), every SpanContext
with traceId T and every non-null object carrier, `inject` writes
`carrier[TRACE_ID] = T` and `carrier[CORRELATION_ID]` = a freshly generated id
that is not the context's own id and that differs again on a second successive
inject call on the same context and format, and it writes TRANSACTION and
LEVEL into the carrier only if the context defines them. -/
theorem C1_inject_writes (format : String) (ctx : APMSpanContext) (trace : Trace)
    (c : JsCarrier) (g : Nat)
    (hf : format = FORMAT_HTTP_HEADERS ∨ format = FORMAT_TEXT_MAP)
    (hfresh : ∀ k, ctx.spanId = some (JsVal.id k) → k < g) :
    ∃ out c1, inject ctx trace format (.obj c) g = .ok out ∧
      out.carrier = .obj c1 ∧
      JsCarrier.getVal c1 CARRIER_TRACE_ID = ctx.traceId ∧
      JsCarrier.getVal c1 CARRIER_CORRELATION_ID = some (JsVal.id g) ∧
      some (JsVal.id g) ≠ ctx.spanId ∧
      (ctx.transaction = none →
        JsCarrier.getVal c1 CARRIER_TRANSACTION = JsCarrier.getVal c CARRIER_TRANSACTION) ∧
      (ctx.level = none →
        JsCarrier.getVal c1 CARRIER_LEVEL = JsCarrier.getVal c CARRIER_LEVEL) ∧
      ∀ out2 c2, inject ctx out.trace format out.carrier out.gen = .ok out2 →
        out2.carrier = .obj c2 →
        JsCarrier.getVal c2 CARRIER_CORRELATION_ID ≠
          JsCarrier.getVal c1 CARRIER_CORRELATION_ID := by
  refine ⟨_, (injectHttpAndTextMap ctx c g).1,
    inject_recognized_obj ctx trace format c g hf, rfl,
    injectHTM_traceId ctx c g, injectHTM_correlationId ctx c g, ?_, ?_, ?_, ?_⟩
  · intro h
    exact absurd (hfresh g h.symm) (lt_irrefl g)
  · intro h
    exact injectHTM_transaction_not_truthy ctx c g (by simp [jsTruthy, h])
  · intro h
    exact injectHTM_level_not_truthy ctx c g (by simp [jsTruthy, h])
  · intro out2 c2 h2 hc2
    rw [inject_recognized_obj ctx _ format _ _ hf] at h2
    simp only [Except.ok.injEq] at h2
    subst h2
    simp only [CarrierV.obj.injEq] at hc2
    subst hc2
    rw [injectHTM_correlationId, injectHTM_correlationId, injectHTM_gen]
    simp

/-- Witness for C1 at a concrete context, empty carrier and generator state 2. -/
theorem C1_inject_writes_witness :
    ∃ out c1,
      inject { spanId := some (JsVal.id 0), traceId := some (JsVal.id 1) } {}
          FORMAT_TEXT_MAP (.obj []) 2 = .ok out ∧
      out.carrier = .obj c1 ∧
      JsCarrier.getVal c1 CARRIER_TRACE_ID
        = ({ spanId := some (JsVal.id 0), traceId := some (JsVal.id 1) } : APMSpanContext).traceId ∧
      JsCarrier.getVal c1 CARRIER_CORRELATION_ID = some (JsVal.id 2) ∧
      some (JsVal.id 2)
        ≠ ({ spanId := some (JsVal.id 0), traceId := some (JsVal.id 1) } : APMSpanContext).spanId ∧
      (({ spanId := some (JsVal.id 0), traceId := some (JsVal.id 1) } : APMSpanContext).transaction = none →
        JsCarrier.getVal c1 CARRIER_TRANSACTION = JsCarrier.getVal [] CARRIER_TRANSACTION) ∧
      (({ spanId := some (JsVal.id 0), traceId := some (JsVal.id 1) } : APMSpanContext).level = none →
        JsCarrier.getVal c1 CARRIER_LEVEL = JsCarrier.getVal [] CARRIER_LEVEL) ∧
      ∀ out2 c2,
        inject { spanId := some (JsVal.id 0), traceId := some (JsVal.id 1) } out.trace
            FORMAT_TEXT_MAP out.carrier out.gen = .ok out2 →
        out2.carrier = .obj c2 →
        JsCarrier.getVal c2 CARRIER_CORRELATION_ID ≠
          JsCarrier.getVal c1 CARRIER_CORRELATION_ID :=
  C1_inject_writes FORMAT_TEXT_MAP
    { spanId := some (JsVal.id 0), traceId := some (JsVal.id 1) } {} [] 2
    (Or.inr rfl) (by intro k hk; simp at hk; omega)

/-! ### Lemmas about the extract codec -/

theorem extractStep_correlationId (a : ExtractAcc) (kv : String × Option JsVal) :
    (extractStep a kv).correlationId =
      if jsToUpper kv.1 = CARRIER_CORRELATION_ID then kv.2 else a.correlationId := by
  simp only [extractStep]
  split_ifs <;>
    simp_all [CARRIER_TRACE_ID, CARRIER_CORRELATION_ID, CARRIER_TRANSACTION, CARRIER_LEVEL]

theorem extractStep_traceId (a : ExtractAcc) (kv : String × Option JsVal) :
    (extractStep a kv).traceId =
      if jsToUpper kv.1 = CARRIER_TRACE_ID then kv.2 else a.traceId := by
  simp only [extractStep]
  split_ifs <;>
    simp_all [CARRIER_TRACE_ID, CARRIER_CORRELATION_ID, CARRIER_TRANSACTION, CARRIER_LEVEL]

theorem extractStep_transaction (a : ExtractAcc) (kv : String × Option JsVal) :
    (extractStep a kv).transaction =
      if jsToUpper kv.1 = CARRIER_TRANSACTION then kv.2 else a.transaction := by
  simp only [extractStep]
  split_ifs <;>
    simp_all [CARRIER_TRACE_ID, CARRIER_CORRELATION_ID, CARRIER_TRANSACTION, CARRIER_LEVEL]

theorem extractStep_level (a : ExtractAcc) (kv : String × Option JsVal) :
    (extractStep a kv).level =
      if jsToUpper kv.1 = CARRIER_LEVEL then kv.2 else a.level := by
  simp only [extractStep]
  split_ifs <;>
    simp_all [CARRIER_TRACE_ID, CARRIER_CORRELATION_ID, CARRIER_TRANSACTION, CARRIER_LEVEL]

theorem foldl_correlationId_no_match (c : JsCarrier)
    (h : ∀ kv ∈ c, jsToUpper kv.1 ≠ CARRIER_CORRELATION_ID) :
    ∀ a, (List.foldl extractStep a c).correlationId = a.correlationId := by
  induction c with
  | nil => intro a; rfl
  | cons kv rest ih =>
    intro a
    rw [List.foldl_cons, ih (fun kv2 hm => h kv2 (List.mem_cons_of_mem _ hm)),
      extractStep_correlationId, if_neg (h kv (List.mem_cons_self _ _))]

theorem foldl_traceId_no_match (c : JsCarrier)
    (h : ∀ kv ∈ c, jsToUpper kv.1 ≠ CARRIER_TRACE_ID) :
    ∀ a, (List.foldl extractStep a c).traceId = a.traceId := by
  induction c with
  | nil => intro a; rfl
  | cons kv rest ih =>
    intro a
    rw [List.foldl_cons, ih (fun kv2 hm => h kv2 (List.mem_cons_of_mem _ hm)),
      extractStep_traceId, if_neg (h kv (List.mem_cons_self _ _))]

theorem foldl_transaction_no_match (c : JsCarrier)
    (h : ∀ kv ∈ c, jsToUpper kv.1 ≠ CARRIER_TRANSACTION) :
    ∀ a, (List.foldl extractStep a c).transaction = a.transaction := by
  induction c with
  | nil => intro a; rfl
  | cons kv rest ih =>
    intro a
    rw [List.foldl_cons, ih (fun kv2 hm => h kv2 (List.mem_cons_of_mem _ hm)),
      extractStep_transaction, if_neg (h kv (List.mem_cons_self _ _))]

theorem foldl_level_no_match (c : JsCarrier)
    (h : ∀ kv ∈ c, jsToUpper kv.1 ≠ CARRIER_LEVEL) :
    ∀ a, (List.foldl extractStep a c).level = a.level := by
  induction c with
  | nil => intro a; rfl
  | cons kv rest ih =>
    intro a
    rw [List.foldl_cons, ih (fun kv2 hm => h kv2 (List.mem_cons_of_mem _ hm)),
      extractStep_level, if_neg (h kv (List.mem_cons_self _ _))]

/-- The last carrier entry whose upper-cased key matches the trace-id key
determines the recovered trace id. -/
theorem foldl_traceId_last_match (c1 c2 : JsCarrier) (k : String) (v : Option JsVal)
    (hk : jsToUpper k = CARRIER_TRACE_ID)
    (h2 : ∀ kv ∈ c2, jsToUpper kv.1 ≠ CARRIER_TRACE_ID) (a : ExtractAcc) :
    (List.foldl extractStep a (c1 ++ (k, v) :: c2)).traceId = v := by
  rw [List.foldl_append, List.foldl_cons, foldl_traceId_no_match c2 h2,
    extractStep_traceId, if_pos hk]

/-- The last carrier entry whose upper-cased key matches the correlation-id key
determines the recovered correlation id. -/
theorem foldl_correlationId_last_match (c1 c2 : JsCarrier) (k : String) (v : Option JsVal)
    (hk : jsToUpper k = CARRIER_CORRELATION_ID)
    (h2 : ∀ kv ∈ c2, jsToUpper kv.1 ≠ CARRIER_CORRELATION_ID) (a : ExtractAcc) :
    (List.foldl extractStep a (c1 ++ (k, v) :: c2)).correlationId = v := by
  rw [List.foldl_append, List.foldl_cons, foldl_correlationId_no_match c2 h2,
    extractStep_correlationId, if_pos hk]

/-- The extraction fold depends only on the upper-cased keys and the values. -/
theorem foldl_extractStep_congr (c1 : JsCarrier) :
    ∀ c2 : JsCarrier,
      c1.map (fun kv => (jsToUpper kv.1, kv.2)) = c2.map (fun kv => (jsToUpper kv.1, kv.2)) →
      ∀ a, List.foldl extractStep a c1 = List.foldl extractStep a c2 := by
  induction c1 with
  | nil =>
    intro c2 h a
    cases c2 with
    | nil => rfl
    | cons kv2 rest2 => simp at h
  | cons kv rest ih =>
    intro c2 h a
    cases c2 with
    | nil => simp at h
    | cons kv2 rest2 =>
      simp only [List.map_cons, List.cons.injEq, Prod.mk.injEq] at h
      obtain ⟨⟨hu, hv⟩, hrest⟩ := h
      rw [List.foldl_cons, List.foldl_cons]
      have hstep : extractStep a kv = extractStep a kv2 := by
        unfold extractStep
        rw [hu, hv]
      rw [hstep]
      exact ih rest2 hrest _

/-- A step on a key whose upper-cased form matches none of the four recognized
names leaves the accumulator unchanged. -/
theorem extractStep_unrecognized (a : ExtractAcc) (kv : String × Option JsVal)
    (h1 : jsToUpper kv.1 ≠ CARRIER_CORRELATION_ID)
    (h2 : jsToUpper kv.1 ≠ CARRIER_TRACE_ID)
    (h3 : jsToUpper kv.1 ≠ CARRIER_TRANSACTION)
    (h4 : jsToUpper kv.1 ≠ CARRIER_LEVEL) :
    extractStep a kv = a := by
  unfold extractStep
  rw [if_neg h1, if_neg h2, if_neg h3, if_neg h4]

/-- Unfolding of `extract` on a recognized format and an object carrier. -/
theorem extract_recognized_obj (format : String) (c : JsCarrier) (g : Nat)
    (hf : format = FORMAT_HTTP_HEADERS ∨ format = FORMAT_TEXT_MAP) :
    extract format (.obj c) g =
      .ok { ctx := some
              { spanId := some (JsVal.id g),
                traceId := (List.foldl extractStep {} c).traceId,
                parentId := none,
                transaction := (List.foldl extractStep {} c).transaction,
                level := (List.foldl extractStep {} c).level,
                consumerCorrelationId := (List.foldl extractStep {} c).correlationId },
            gen := g + 1, log := [] } := by
  rcases hf with hf | hf <;> subst hf <;>
    simp [extract, extractHttpAndTextMap, jsObjectEntries, generateSpanId]

/-- C2 (as stated) is false: a context whose transaction is the empty string —
defined, but falsy — does not round-trip: inject drops the falsy transaction,
so extraction recovers `undefined` instead of the original value. -/
theorem C2_round_trip_counterexample :
    ∃ out eout,
      inject { spanId := some (JsVal.id 1), traceId := some (JsVal.id 0), transaction := some (JsVal.str "") } {} FORMAT_TEXT_MAP (.obj []) 2 = .ok out ∧
      extract FORMAT_TEXT_MAP out.carrier out.gen = .ok eout ∧
      ∃ ctx2, eout.ctx = some ctx2 ∧ ctx2.transaction = none ∧
        ctx2.transaction ≠ ({ spanId := some (JsVal.id 1), traceId := some (JsVal.id 0), transaction := some (JsVal.str "") } : APMSpanContext).transaction := by
  refine ⟨_, _, rfl, rfl, _, rfl, rfl, by decide⟩

/-- C2 (amended): for every supported format and every context whose
transaction and level are each undefined or truthy, extracting from a fresh
empty carrier just populated by inject yields a context with the same traceId,
transaction and level, and with the freshly minted correlation id — not the
context's own id — as consumer correlation id.  (A defined-but-falsy
transaction or level, such as the empty string, is dropped by inject and does
not round-trip.) -/
theorem C2_round_trip (format : String) (ctx : APMSpanContext) (trace : Trace) (g : Nat)
    (hf : format = FORMAT_HTTP_HEADERS ∨ format = FORMAT_TEXT_MAP)
    (htx : ctx.transaction = none ∨ jsTruthy ctx.transaction = true)
    (hlv : ctx.level = none ∨ jsTruthy ctx.level = true)
    (hfresh : ∀ k, ctx.spanId = some (JsVal.id k) → k < g) :
    ∃ out eout ctx2,
      inject ctx trace format (.obj []) g = .ok out ∧
      extract format out.carrier out.gen = .ok eout ∧
      eout.ctx = some ctx2 ∧
      ctx2.traceId = ctx.traceId ∧
      ctx2.transaction = ctx.transaction ∧
      ctx2.level = ctx.level ∧
      ctx2.consumerCorrelationId = some (JsVal.id g) ∧
      ctx2.consumerCorrelationId ≠ ctx.spanId := by
  have hinj := inject_recognized_obj ctx trace format [] g hf
  have hext := extract_recognized_obj format (injectHttpAndTextMap ctx [] g).1
    (injectHttpAndTextMap ctx [] g).2 hf
  have hne : ∀ h : some (JsVal.id g) = ctx.spanId, False := fun h =>
    absurd (hfresh g h.symm) (lt_irrefl g)
  rcases htx with htx | htx <;> rcases hlv with hlv | hlv
  · have ht2 : jsTruthy ctx.transaction = false := by rw [htx]; rfl
    have hl2 : jsTruthy ctx.level = false := by rw [hlv]; rfl
    have hcar : (injectHttpAndTextMap ctx [] g).1 =
        [(CARRIER_TRACE_ID, ctx.traceId), (CARRIER_CORRELATION_ID, some (JsVal.id g))] := by
      simp [injectHttpAndTextMap, JsCarrier.setVal, generateSpanId, ht2, hl2,
        CARRIER_TRACE_ID, CARRIER_CORRELATION_ID, CARRIER_TRANSACTION, CARRIER_LEVEL]
    have hfold : List.foldl extractStep {}
        [(CARRIER_TRACE_ID, ctx.traceId), (CARRIER_CORRELATION_ID, some (JsVal.id g))] =
        { correlationId := some (JsVal.id g), traceId := ctx.traceId,
          transaction := none, level := none } := by
      simp [extractStep, jsToUpper, CARRIER_TRACE_ID, CARRIER_CORRELATION_ID,
        CARRIER_TRANSACTION, CARRIER_LEVEL]
    refine ⟨_, _, _, hinj, hext, rfl, ?_, ?_, ?_, ?_, ?_⟩
    · simp [hcar, hfold]
    · simp [hcar, hfold, htx]
    · simp [hcar, hfold, hlv]
    · simp [hcar, hfold]
    · simp only [hcar, hfold]
      intro h
      exact hne h
  · have ht2 : jsTruthy ctx.transaction = false := by rw [htx]; rfl
    have hcar : (injectHttpAndTextMap ctx [] g).1 =
        [(CARRIER_TRACE_ID, ctx.traceId), (CARRIER_CORRELATION_ID, some (JsVal.id g)),
         (CARRIER_LEVEL, ctx.level)] := by
      simp [injectHttpAndTextMap, JsCarrier.setVal, generateSpanId, ht2, hlv,
        CARRIER_TRACE_ID, CARRIER_CORRELATION_ID, CARRIER_TRANSACTION, CARRIER_LEVEL]
    have hfold : List.foldl extractStep {}
        [(CARRIER_TRACE_ID, ctx.traceId), (CARRIER_CORRELATION_ID, some (JsVal.id g)),
         (CARRIER_LEVEL, ctx.level)] =
        { correlationId := some (JsVal.id g), traceId := ctx.traceId,
          transaction := none, level := ctx.level } := by
      simp [extractStep, jsToUpper, CARRIER_TRACE_ID, CARRIER_CORRELATION_ID,
        CARRIER_TRANSACTION, CARRIER_LEVEL]
    refine ⟨_, _, _, hinj, hext, rfl, ?_, ?_, ?_, ?_, ?_⟩
    · simp [hcar, hfold]
    · simp [hcar, hfold, htx]
    · simp [hcar, hfold]
    · simp [hcar, hfold]
    · simp only [hcar, hfold]
      intro h
      exact hne h
  · have hl2 : jsTruthy ctx.level = false := by rw [hlv]; rfl
    have hcar : (injectHttpAndTextMap ctx [] g).1 =
        [(CARRIER_TRACE_ID, ctx.traceId), (CARRIER_CORRELATION_ID, some (JsVal.id g)),
         (CARRIER_TRANSACTION, ctx.transaction)] := by
      simp [injectHttpAndTextMap, JsCarrier.setVal, generateSpanId, htx, hl2,
        CARRIER_TRACE_ID, CARRIER_CORRELATION_ID, CARRIER_TRANSACTION, CARRIER_LEVEL]
    have hfold : List.foldl extractStep {}
        [(CARRIER_TRACE_ID, ctx.traceId), (CARRIER_CORRELATION_ID, some (JsVal.id g)),
         (CARRIER_TRANSACTION, ctx.transaction)] =
        { correlationId := some (JsVal.id g), traceId := ctx.traceId,
          transaction := ctx.transaction, level := none } := by
      simp [extractStep, jsToUpper, CARRIER_TRACE_ID, CARRIER_CORRELATION_ID,
        CARRIER_TRANSACTION, CARRIER_LEVEL]
    refine ⟨_, _, _, hinj, hext, rfl, ?_, ?_, ?_, ?_, ?_⟩
    · simp [hcar, hfold]
    · simp [hcar, hfold]
    · simp [hcar, hfold, hlv]
    · simp [hcar, hfold]
    · simp only [hcar, hfold]
      intro h
      exact hne h
  · have hcar : (injectHttpAndTextMap ctx [] g).1 =
        [(CARRIER_TRACE_ID, ctx.traceId), (CARRIER_CORRELATION_ID, some (JsVal.id g)),
         (CARRIER_TRANSACTION, ctx.transaction), (CARRIER_LEVEL, ctx.level)] := by
      simp [injectHttpAndTextMap, JsCarrier.setVal, generateSpanId, htx, hlv,
        CARRIER_TRACE_ID, CARRIER_CORRELATION_ID, CARRIER_TRANSACTION, CARRIER_LEVEL]
    have hfold : List.foldl extractStep {}
        [(CARRIER_TRACE_ID, ctx.traceId), (CARRIER_CORRELATION_ID, some (JsVal.id g)),
         (CARRIER_TRANSACTION, ctx.transaction), (CARRIER_LEVEL, ctx.level)] =
        { correlationId := some (JsVal.id g), traceId := ctx.traceId,
          transaction := ctx.transaction, level := ctx.level } := by
      simp [extractStep, jsToUpper, CARRIER_TRACE_ID, CARRIER_CORRELATION_ID,
        CARRIER_TRANSACTION, CARRIER_LEVEL]
    refine ⟨_, _, _, hinj, hext, rfl, ?_, ?_, ?_, ?_, ?_⟩
    · simp [hcar, hfold]
    · simp [hcar, hfold]
    · simp [hcar, hfold]
    · simp [hcar, hfold]
    · simp only [hcar, hfold]
      intro h
      exact hne h

/-- Witness for the amended C2 at a concrete context with a truthy transaction
and no level. -/
theorem C2_round_trip_witness :
    ∃ out eout ctx2,
      inject { spanId := some (JsVal.id 1), traceId := some (JsVal.id 0), transaction := some (JsVal.str "t") } {} FORMAT_TEXT_MAP (.obj []) 2 = .ok out ∧
      extract FORMAT_TEXT_MAP out.carrier out.gen = .ok eout ∧
      eout.ctx = some ctx2 ∧
      ctx2.traceId = ({ spanId := some (JsVal.id 1), traceId := some (JsVal.id 0), transaction := some (JsVal.str "t") } : APMSpanContext).traceId ∧
      ctx2.transaction = ({ spanId := some (JsVal.id 1), traceId := some (JsVal.id 0), transaction := some (JsVal.str "t") } : APMSpanContext).transaction ∧
      ctx2.level = ({ spanId := some (JsVal.id 1), traceId := some (JsVal.id 0), transaction := some (JsVal.str "t") } : APMSpanContext).level ∧
      ctx2.consumerCorrelationId = some (JsVal.id 2) ∧
      ctx2.consumerCorrelationId ≠ ({ spanId := some (JsVal.id 1), traceId := some (JsVal.id 0), transaction := some (JsVal.str "t") } : APMSpanContext).spanId :=
  C2_round_trip FORMAT_TEXT_MAP
    { spanId := some (JsVal.id 1), traceId := some (JsVal.id 0), transaction := some (JsVal.str "t") }
    {} 2 (Or.inr rfl) (Or.inr (by decide)) (Or.inl rfl)
    (by intro k hk; simp at hk; omega)

/-- C3: for every supported format and object carrier, extract matches the four
recognized key names regardless of letter case (the result depends only on the
upper-cased keys), ignores unrecognized keys entirely, leaves optional fields
undefined when their keys are absent, and returns a context with a freshly
generated local spanId, the recovered traceId, and the recovered correlation
id stored as the consumer correlation id. -/
theorem C3_extract_shape (format : String) (g : Nat)
    (hf : format = FORMAT_HTTP_HEADERS ∨ format = FORMAT_TEXT_MAP) :
    (∀ c c2 : JsCarrier,
        c.map (fun kv => (jsToUpper kv.1, kv.2)) = c2.map (fun kv => (jsToUpper kv.1, kv.2)) →
        extract format (.obj c) g = extract format (.obj c2) g) ∧
    (∀ (c1 c2 : JsCarrier) (k : String) (v : Option JsVal),
        jsToUpper k ≠ CARRIER_CORRELATION_ID → jsToUpper k ≠ CARRIER_TRACE_ID →
        jsToUpper k ≠ CARRIER_TRANSACTION → jsToUpper k ≠ CARRIER_LEVEL →
        extract format (.obj (c1 ++ (k, v) :: c2)) g = extract format (.obj (c1 ++ c2)) g) ∧
    (∀ c : JsCarrier, ∃ eout ctx2,
        extract format (.obj c) g = .ok eout ∧ eout.ctx = some ctx2 ∧
        ctx2.spanId = some (JsVal.id g) ∧ ctx2.parentId = none ∧ eout.gen = g + 1 ∧
        ((∀ kv ∈ c, jsToUpper kv.1 ≠ CARRIER_TRACE_ID) → ctx2.traceId = none) ∧
        ((∀ kv ∈ c, jsToUpper kv.1 ≠ CARRIER_TRANSACTION) → ctx2.transaction = none) ∧
        ((∀ kv ∈ c, jsToUpper kv.1 ≠ CARRIER_LEVEL) → ctx2.level = none) ∧
        ((∀ kv ∈ c, jsToUpper kv.1 ≠ CARRIER_CORRELATION_ID) →
          ctx2.consumerCorrelationId = none)) ∧
    (∀ (c1 c2 : JsCarrier) (k : String) (v : Option JsVal),
        jsToUpper k = CARRIER_TRACE_ID →
        (∀ kv ∈ c2, jsToUpper kv.1 ≠ CARRIER_TRACE_ID) →
        ∃ eout ctx2, extract format (.obj (c1 ++ (k, v) :: c2)) g = .ok eout ∧
          eout.ctx = some ctx2 ∧ ctx2.traceId = v) ∧
    (∀ (c1 c2 : JsCarrier) (k : String) (v : Option JsVal),
        jsToUpper k = CARRIER_CORRELATION_ID →
        (∀ kv ∈ c2, jsToUpper kv.1 ≠ CARRIER_CORRELATION_ID) →
        ∃ eout ctx2, extract format (.obj (c1 ++ (k, v) :: c2)) g = .ok eout ∧
          eout.ctx = some ctx2 ∧ ctx2.consumerCorrelationId = v) := by
  refine ⟨?_, ?_, ?_, ?_, ?_⟩
  · intro c c2 h
    rw [extract_recognized_obj format c g hf, extract_recognized_obj format c2 g hf,
      foldl_extractStep_congr c c2 h {}]
  · intro c1 c2 k v h1 h2 h3 h4
    rw [extract_recognized_obj format _ g hf, extract_recognized_obj format _ g hf]
    have hstep : ∀ a : ExtractAcc, extractStep a (k, v) = a :=
      fun a => extractStep_unrecognized a (k, v) h1 h2 h3 h4
    simp [List.foldl_append, hstep]
  · intro c
    refine ⟨_, _, extract_recognized_obj format c g hf, rfl, rfl, rfl, rfl,
      ?_, ?_, ?_, ?_⟩
    · intro h
      exact foldl_traceId_no_match c h {}
    · intro h
      exact foldl_transaction_no_match c h {}
    · intro h
      exact foldl_level_no_match c h {}
    · intro h
      exact foldl_correlationId_no_match c h {}
  · intro c1 c2 k v hk h2
    exact ⟨_, _, extract_recognized_obj format _ g hf, rfl,
      foldl_traceId_last_match c1 c2 k v hk h2 {}⟩
  · intro c1 c2 k v hk h2
    exact ⟨_, _, extract_recognized_obj format _ g hf, rfl,
      foldl_correlationId_last_match c1 c2 k v hk h2 {}⟩

/-- Witness for C3: mixed-case key recognition and junk-key invariance at
concrete carriers. -/
theorem C3_extract_shape_witness :
    extract FORMAT_HTTP_HEADERS (.obj [("Hwkapmtraceid", some (JsVal.id 9))]) 7 =
      extract FORMAT_HTTP_HEADERS (.obj [("HWKAPMTRACEID", some (JsVal.id 9))]) 7 ∧
    extract FORMAT_HTTP_HEADERS (.obj [("junk", some (JsVal.str "x"))]) 7 =
      extract FORMAT_HTTP_HEADERS (.obj []) 7 :=
  ⟨(C3_extract_shape FORMAT_HTTP_HEADERS 7 (Or.inl rfl)).1 _ _ (by decide),
   (C3_extract_shape FORMAT_HTTP_HEADERS 7 (Or.inl rfl)).2.1 [] [] "junk"
     (some (JsVal.str "x")) (by decide) (by decide) (by decide) (by decide)⟩

/-! ### Unfolding lemmas for the guard and unknown-format paths -/

theorem inject_null (ctx : APMSpanContext) (trace : Trace) (format : String) (g : Nat) :
    inject ctx trace format .null g =
      .ok { carrier := .null, trace := trace, gen := g,
            log := ["Carrier should not be null!"] } := by
  simp [inject, CarrierV.jsFalsy]

theorem inject_undef (ctx : APMSpanContext) (trace : Trace) (format : String) (g : Nat) :
    inject ctx trace format .undef g =
      .ok { carrier := .undef, trace := trace, gen := g,
            log := ["Carrier should not be null!"] } := by
  simp [inject, CarrierV.jsFalsy]

theorem inject_num_zero (ctx : APMSpanContext) (trace : Trace) (format : String) (g : Nat) :
    inject ctx trace format (.num 0) g =
      .ok { carrier := .num 0, trace := trace, gen := g,
            log := ["Carrier should not be null!"] } := by
  simp [inject, CarrierV.jsFalsy]

theorem inject_num_nonzero (ctx : APMSpanContext) (trace : Trace) (format : String)
    (n : Int) (g : Nat) (hn : n ≠ 0) :
    inject ctx trace format (.num n) g =
      .ok { carrier := .num n, trace := trace, gen := g,
            log := ["Carrier is not object!"] } := by
  simp [inject, CarrierV.jsFalsy, CarrierV.typeofObject, hn]

theorem inject_unknown_obj (ctx : APMSpanContext) (trace : Trace) (format : String)
    (c : JsCarrier) (g : Nat)
    (h1 : format ≠ FORMAT_HTTP_HEADERS) (h2 : format ≠ FORMAT_TEXT_MAP) :
    inject ctx trace format (.obj c) g =
      .ok { carrier := .obj c,
            trace := trace.setNodeType NodeType.producer ctx
              { value := JsCarrier.getVal c CARRIER_CORRELATION_ID,
                scope := CORR_ID_SCOPE_INTERACTION },
            gen := g, log := ["Inject unknown format!"] } := by
  simp [inject, CarrierV.jsFalsy, CarrierV.typeofObject, h1, h2]

theorem extract_unknown (format : String) (carrier : CarrierV) (g : Nat)
    (h1 : format ≠ FORMAT_HTTP_HEADERS) (h2 : format ≠ FORMAT_TEXT_MAP) :
    extract format carrier g =
      .ok { ctx := some
              { spanId := none, traceId := none, parentId := none,
                transaction := none, level := none, consumerCorrelationId := none },
            gen := g, log := ["Extract unknown format"] } := by
  simp [extract, h1, h2]

theorem extract_recognized_num (format : String) (n : Int) (g : Nat)
    (hf : format = FORMAT_HTTP_HEADERS ∨ format = FORMAT_TEXT_MAP) :
    extract format (.num n) g =
      .ok { ctx := some
              { spanId := some (JsVal.id g), traceId := none, parentId := none,
                transaction := none, level := none, consumerCorrelationId := none },
            gen := g + 1, log := [] } := by
  rcases hf with hf | hf <;> subst hf <;>
    simp [extract, extractHttpAndTextMap, jsObjectEntries, generateSpanId]

theorem extract_recognized_null (format : String) (g : Nat)
    (hf : format = FORMAT_HTTP_HEADERS ∨ format = FORMAT_TEXT_MAP) :
    extract format .null g = .error JsErr.typeError := by
  rcases hf with hf | hf <;> subst hf <;>
    simp [extract, extractHttpAndTextMap, jsObjectEntries]

theorem extract_recognized_undef (format : String) (g : Nat)
    (hf : format = FORMAT_HTTP_HEADERS ∨ format = FORMAT_TEXT_MAP) :
    extract format .undef g = .error JsErr.typeError := by
  rcases hf with hf | hf <;> subst hf <;>
    simp [extract, extractHttpAndTextMap, jsObjectEntries]

/-- C4: for every unrecognized format and non-null object carrier, inject
raises no exception and leaves the carrier unmodified, yet still appends a
PRODUCER-type node to the owning trace, keyed by the correlation-id value read
from the carrier, with interaction scope. -/
theorem C4_inject_unknown_format (format : String) (ctx : APMSpanContext) (trace : Trace)
    (c : JsCarrier) (g : Nat)
    (h1 : format ≠ FORMAT_HTTP_HEADERS) (h2 : format ≠ FORMAT_TEXT_MAP) :
    inject ctx trace format (.obj c) g =
      .ok { carrier := .obj c,
            trace := { nodes := trace.nodes ++
              [{ span := none, nodeType := some NodeType.producer, context := some ctx,
                 correlation := some { value := JsCarrier.getVal c CARRIER_CORRELATION_ID,
                                       scope := CORR_ID_SCOPE_INTERACTION } }] },
            gen := g, log := ["Inject unknown format!"] } := by
  rw [inject_unknown_obj ctx trace format c g h1 h2]
  rfl

/-- Witness for C4 at the format string "binary" and a carrier already holding
a correlation id. -/
theorem C4_inject_unknown_format_witness :
    inject {} {} "binary" (.obj [(CARRIER_CORRELATION_ID, some (JsVal.id 5))]) 0 =
      .ok { carrier := .obj [(CARRIER_CORRELATION_ID, some (JsVal.id 5))],
            trace := { nodes :=
              [{ span := none, nodeType := some NodeType.producer, context := some {},
                 correlation := some { value := some (JsVal.id 5),
                                       scope := CORR_ID_SCOPE_INTERACTION } }] },
            gen := 0, log := ["Inject unknown format!"] } := by
  rw [C4_inject_unknown_format "binary" {} {} [(CARRIER_CORRELATION_ID, some (JsVal.id 5))] 0
    (by decide) (by decide)]
  simp [JsCarrier.getVal]

/-- C5: for every unrecognized format and every carrier, extract does not throw
and returns a non-null, empty SpanContext carrying no recovered identifiers
(in particular no traceId). -/
theorem C5_extract_unknown_format (format : String) (carrier : CarrierV) (g : Nat)
    (h1 : format ≠ FORMAT_HTTP_HEADERS) (h2 : format ≠ FORMAT_TEXT_MAP) :
    ∃ eout, extract format carrier g = .ok eout ∧
      eout.ctx = some
        { spanId := none, traceId := none, parentId := none,
          transaction := none, level := none, consumerCorrelationId := none } ∧
      eout.gen = g :=
  ⟨_, extract_unknown format carrier g h1 h2, rfl, rfl⟩

/-- Witness for C5 at format "binary" and a carrier that does hold a trace id,
which is nonetheless not recovered. -/
theorem C5_extract_unknown_format_witness :
    ∃ eout,
      extract "binary" (.obj [(CARRIER_TRACE_ID, some (JsVal.id 3))]) 5 = .ok eout ∧
      eout.ctx = some
        { spanId := none, traceId := none, parentId := none,
          transaction := none, level := none, consumerCorrelationId := none } ∧
      eout.gen = 5 :=
  C5_extract_unknown_format "binary" (.obj [(CARRIER_TRACE_ID, some (JsVal.id 3))]) 5
    (by decide) (by decide)

/-- C6: for every format and context, inject with a null or non-object carrier
emits a diagnostic, does not throw, and mutates nothing: carrier, owning trace
(no PRODUCER node appended) and generator state are unchanged. -/
theorem C6_inject_invalid_carrier (format : String) (ctx : APMSpanContext) (trace : Trace)
    (carrier : CarrierV) (g : Nat) (h : ∀ c, carrier ≠ CarrierV.obj c) :
    ∃ out, inject ctx trace format carrier g = .ok out ∧
      out.carrier = carrier ∧ out.trace = trace ∧ out.gen = g ∧
      (out.log = ["Carrier should not be null!"] ∨ out.log = ["Carrier is not object!"]) := by
  cases carrier with
  | null => exact ⟨_, inject_null ctx trace format g, rfl, rfl, rfl, Or.inl rfl⟩
  | undef => exact ⟨_, inject_undef ctx trace format g, rfl, rfl, rfl, Or.inl rfl⟩
  | num n =>
    by_cases hn : n = 0
    · subst hn
      exact ⟨_, inject_num_zero ctx trace format g, rfl, rfl, rfl, Or.inl rfl⟩
    · exact ⟨_, inject_num_nonzero ctx trace format n g hn, rfl, rfl, rfl, Or.inr rfl⟩
  | obj c => exact absurd rfl (h c)

/-- Witness for C6 at the number 42 as carrier. -/
theorem C6_inject_invalid_carrier_witness :
    ∃ out, inject {} {} FORMAT_TEXT_MAP (.num 42) 0 = .ok out ∧
      out.carrier = .num 42 ∧ out.trace = ({} : Trace) ∧ out.gen = 0 ∧
      (out.log = ["Carrier should not be null!"] ∨ out.log = ["Carrier is not object!"]) :=
  C6_inject_invalid_carrier FORMAT_TEXT_MAP {} {} (.num 42) 0
    (fun _ h => CarrierV.noConfusion h)

/-- C8 (as stated) is false: extract on a recognized format with a null
carrier raises a TypeError (JavaScript `Object.keys(null)`). -/
theorem C8_no_throw_counterexample :
    extract FORMAT_TEXT_MAP CarrierV.null 0 = .error JsErr.typeError :=
  extract_recognized_null FORMAT_TEXT_MAP 0 (Or.inr rfl)

/-- C8 (amended): no call into inject or startSpan ever throws, and extract
throws only in the single case of a recognized format with a null or undefined
carrier; for every other input (non-null carriers of any type, and any carrier
under an unrecognized format) extract returns normally. -/
theorem C8_no_throw_amended :
    (∀ (ctx : APMSpanContext) (trace : Trace) (format : String) (carrier : CarrierV) (g : Nat),
        ∃ out, inject ctx trace format carrier g = .ok out) ∧
    (∀ (name : String) (fields : Option FieldsObj), ∃ r, startSpan name fields = r) ∧
    (∀ (format : String) (carrier : CarrierV) (g : Nat),
        carrier ≠ CarrierV.null → carrier ≠ CarrierV.undef →
        ∃ out, extract format carrier g = .ok out) ∧
    (∀ (format : String) (carrier : CarrierV) (g : Nat),
        format ≠ FORMAT_HTTP_HEADERS → format ≠ FORMAT_TEXT_MAP →
        ∃ out, extract format carrier g = .ok out) ∧
    (∀ (format : String) (g : Nat),
        (format = FORMAT_HTTP_HEADERS ∨ format = FORMAT_TEXT_MAP) →
        extract format CarrierV.null g = .error JsErr.typeError ∧
        extract format CarrierV.undef g = .error JsErr.typeError) := by
  refine ⟨?_, ?_, ?_, ?_, ?_⟩
  · intro ctx trace format carrier g
    cases carrier with
    | null => exact ⟨_, inject_null ctx trace format g⟩
    | undef => exact ⟨_, inject_undef ctx trace format g⟩
    | num n =>
      by_cases hn : n = 0
      · subst hn; exact ⟨_, inject_num_zero ctx trace format g⟩
      · exact ⟨_, inject_num_nonzero ctx trace format n g hn⟩
    | obj c =>
      by_cases hf : format = FORMAT_HTTP_HEADERS ∨ format = FORMAT_TEXT_MAP
      · exact ⟨_, inject_recognized_obj ctx trace format c g hf⟩
      · push_neg at hf
        exact ⟨_, inject_unknown_obj ctx trace format c g hf.1 hf.2⟩
  · intro name fields
    exact ⟨_, rfl⟩
  · intro format carrier g h1 h2
    by_cases hf : format = FORMAT_HTTP_HEADERS ∨ format = FORMAT_TEXT_MAP
    · cases carrier with
      | null => exact absurd rfl h1
      | undef => exact absurd rfl h2
      | num n => exact ⟨_, extract_recognized_num format n g hf⟩
      | obj c => exact ⟨_, extract_recognized_obj format c g hf⟩
    · push_neg at hf
      exact ⟨_, extract_unknown format carrier g hf.1 hf.2⟩
  · intro format carrier g h1 h2
    exact ⟨_, extract_unknown format carrier g h1 h2⟩
  · intro format g hf
    exact ⟨extract_recognized_null format g hf, extract_recognized_undef format g hf⟩

/-- Witness for the amended C8 at concrete inputs for each conjunct. -/
theorem C8_no_throw_amended_witness :
    (∃ out, inject {} {} FORMAT_TEXT_MAP (.obj []) 0 = .ok out) ∧
    (∃ out, extract FORMAT_TEXT_MAP (.num 42) 0 = .ok out) ∧
    (∃ out, extract "binary" CarrierV.null 0 = .ok out) ∧
    extract FORMAT_HTTP_HEADERS CarrierV.null 0 = .error JsErr.typeError :=
  ⟨C8_no_throw_amended.1 {} {} FORMAT_TEXT_MAP (.obj []) 0,
   C8_no_throw_amended.2.2.1 FORMAT_TEXT_MAP (.num 42) 0 (by decide) (by decide),
   C8_no_throw_amended.2.2.2.1 "binary" CarrierV.null 0 (by decide) (by decide),
   (C8_no_throw_amended.2.2.2.2 FORMAT_HTTP_HEADERS 0 (Or.inl rfl)).1⟩

/-! ### Lemmas about the trace decorator -/

theorem hasOwn_setTag (s : APMSpan) (k v k1 : String) :
    (s.setTag k v).tags.hasOwn k1 = if k1 = k then true else s.tags.hasOwn k1 := by
  unfold APMSpan.setTag TagMap.hasOwn
  simp only [assocFind_assocSet]
  by_cases h : k1 = k <;> simp [h]

theorem decorateSpan_preserves_own (md : DeploymentMetaData) (s : APMSpan) (k v : String)
    (h : assocFind s.tags.own k = some v) :
    assocFind (decorateSpan md s).tags.own k = some v := by
  have hk : TagMap.hasOwn s.tags k = true := by simp [TagMap.hasOwn, h]
  simp only [decorateSpan]
  split_ifs with h1 h2 h2
  · rcases (Bool.and_eq_true _ _).mp h1 with ⟨hb1, hn1⟩
    rcases (Bool.and_eq_true _ _).mp h2 with ⟨hb2, hn2⟩
    have hks : k ≠ PROP_SERVICE_NAME := by
      intro e
      rw [e] at hk
      simp [hk] at hn1
    have hkb : k ≠ PROP_BUILD_STAMP := by
      intro e
      rw [hasOwn_setTag] at hn2
      rw [e] at hk
      have hSB : ¬PROP_BUILD_STAMP = PROP_SERVICE_NAME := by decide
      simp [hk, hSB] at hn2
    simp [APMSpan.setTag, assocFind_assocSet, hks, hkb, h]
  · rcases (Bool.and_eq_true _ _).mp h1 with ⟨hb1, hn1⟩
    have hks : k ≠ PROP_SERVICE_NAME := by
      intro e
      rw [e] at hk
      simp [hk] at hn1
    simp [APMSpan.setTag, assocFind_assocSet, hks, h]
  · rcases (Bool.and_eq_true _ _).mp h2 with ⟨hb2, hn2⟩
    have hkb : k ≠ PROP_BUILD_STAMP := by
      intro e
      rw [e] at hk
      simp [hk] at hn2
    simp [APMSpan.setTag, assocFind_assocSet, hkb, h]
  · exact h

theorem decorateSpan_sets_service (md : DeploymentMetaData) (s : APMSpan) (sName : String)
    (hmd : md.serviceName = some sName) (hb : jsTruthyStr md.serviceName = true)
    (habs : s.tags.hasOwn PROP_SERVICE_NAME = false) :
    assocFind (decorateSpan md s).tags.own PROP_SERVICE_NAME = some sName := by
  have hc1 : (jsTruthyStr md.serviceName && !TagMap.hasOwn s.tags PROP_SERVICE_NAME) = true := by
    rw [hb, habs]; rfl
  simp only [decorateSpan, hc1, if_true]
  split_ifs with h2
  · simp [APMSpan.setTag, assocFind_assocSet, hmd, PROP_SERVICE_NAME, PROP_BUILD_STAMP]
  · simp [APMSpan.setTag, assocFind_assocSet, hmd]

theorem decorateSpan_sets_build (md : DeploymentMetaData) (s : APMSpan) (bStamp : String)
    (hmd : md.buildStamp = some bStamp) (hb : jsTruthyStr md.buildStamp = true)
    (habs : s.tags.hasOwn PROP_BUILD_STAMP = false) :
    assocFind (decorateSpan md s).tags.own PROP_BUILD_STAMP = some bStamp := by
  simp only [decorateSpan]
  split_ifs with h1 h2 h2
  · simp [APMSpan.setTag, assocFind_assocSet, hmd]
  · exfalso
    have hB : TagMap.hasOwn (APMSpan.setTag s PROP_SERVICE_NAME
        (md.serviceName.getD "")).tags PROP_BUILD_STAMP = false := by
      rw [hasOwn_setTag]
      have hSB : ¬PROP_BUILD_STAMP = PROP_SERVICE_NAME := by decide
      simp [habs, hSB]
    rw [hb, hB] at h2
    simp at h2
  · simp [APMSpan.setTag, assocFind_assocSet, hmd]
  · exfalso
    rw [hb, habs] at h2
    simp at h2

theorem decorateSpan_no_op (md : DeploymentMetaData) (s : APMSpan)
    (h1 : jsTruthyStr md.serviceName = true → s.tags.hasOwn PROP_SERVICE_NAME = true)
    (h2 : jsTruthyStr md.buildStamp = true → s.tags.hasOwn PROP_BUILD_STAMP = true) :
    decorateSpan md s = s := by
  simp only [decorateSpan]
  split_ifs with c1 c2 c2 <;> try rfl
  · rcases (Bool.and_eq_true _ _).mp c1 with ⟨ha, hn⟩
    rw [h1 ha] at hn
    simp at hn
  · rcases (Bool.and_eq_true _ _).mp c1 with ⟨ha, hn⟩
    rw [h1 ha] at hn
    simp at hn
  · rcases (Bool.and_eq_true _ _).mp c2 with ⟨ha, hn⟩
    rw [h2 ha] at hn
    simp at hn

theorem decorateSpan_hasOwn_service (md : DeploymentMetaData) (s : APMSpan)
    (hb : jsTruthyStr md.serviceName = true) :
    (decorateSpan md s).tags.hasOwn PROP_SERVICE_NAME = true := by
  simp only [decorateSpan]
  split_ifs with h1 h2 h2
  · simp [hasOwn_setTag, PROP_SERVICE_NAME, PROP_BUILD_STAMP]
  · simp [hasOwn_setTag]
  · have hs : TagMap.hasOwn s.tags PROP_SERVICE_NAME = true := by
      rw [hb] at h1
      simpa using h1
    simp [hasOwn_setTag, hs]
  · rw [hb] at h1
    simpa using h1

theorem decorateSpan_hasOwn_build (md : DeploymentMetaData) (s : APMSpan)
    (hb : jsTruthyStr md.buildStamp = true) :
    (decorateSpan md s).tags.hasOwn PROP_BUILD_STAMP = true := by
  simp only [decorateSpan]
  split_ifs with h1 h2 h2
  · simp [hasOwn_setTag]
  · rw [hb] at h2
    simpa using h2
  · simp [hasOwn_setTag]
  · rw [hb] at h2
    simpa using h2

theorem decorateSpan_idem (md : DeploymentMetaData) (s : APMSpan) :
    decorateSpan md (decorateSpan md s) = decorateSpan md s := by
  refine decorateSpan_no_op md (decorateSpan md s) ?_ ?_
  · exact fun hb => decorateSpan_hasOwn_service md s hb
  · exact fun hb => decorateSpan_hasOwn_build md s hb

theorem traceDecorator_nil (md : DeploymentMetaData) (t : Trace) (h : t.nodes = []) :
    traceDecorator md t = t := by
  simp [traceDecorator, h]

theorem traceDecorator_no_span (md : DeploymentMetaData) (t : Trace) (n : TraceNode)
    (rest : List TraceNode) (ht : t.nodes = n :: rest) (hs : n.span = none) :
    traceDecorator md t = t := by
  simp [traceDecorator, ht, hs]

theorem traceDecorator_cons_span (md : DeploymentMetaData) (t : Trace) (n : TraceNode)
    (rest : List TraceNode) (sp : APMSpan) (ht : t.nodes = n :: rest) (hs : n.span = some sp) :
    traceDecorator md t =
      { nodes := ({ n with span := some (decorateSpan md sp) } : TraceNode) :: rest } := by
  simp [traceDecorator, ht, hs]

theorem traceDecorator_idem (md : DeploymentMetaData) (t : Trace) :
    traceDecorator md (traceDecorator md t) = traceDecorator md t := by
  rcases ht : t.nodes with _ | ⟨n, rest⟩
  · rw [traceDecorator_nil md t ht, traceDecorator_nil md t ht]
  · rcases hs : n.span with _ | sp
    · rw [traceDecorator_no_span md t n rest ht hs, traceDecorator_no_span md t n rest ht hs]
    · rw [traceDecorator_cons_span md t n rest sp ht hs,
        traceDecorator_cons_span md _ ({ n with span := some (decorateSpan md sp) }) rest
          (decorateSpan md sp) rfl rfl,
        decorateSpan_idem]

/-- C7: the trace decorator touches only the first (root) node, is a no-op
when the trace has no nodes or the root node has no span, never overwrites a
tag already present as an own property of the root span's tag map, sets each
truthy deployment-metadata field as a tag when its key is not an own property
(prototype entries, quantified arbitrarily inside the span's tag map, do not
count as present), and applying it twice equals applying it once. -/
theorem C7_trace_decorator (md : DeploymentMetaData) :
    (∀ t : Trace, t.nodes = [] → traceDecorator md t = t) ∧
    (∀ (t : Trace) (n : TraceNode) (rest : List TraceNode),
        t.nodes = n :: rest → n.span = none → traceDecorator md t = t) ∧
    (∀ (t : Trace) (n : TraceNode) (rest : List TraceNode),
        t.nodes = n :: rest →
        ∃ n2, (traceDecorator md t).nodes = n2 :: rest ∧
          n2.nodeType = n.nodeType ∧ n2.context = n.context ∧
          n2.correlation = n.correlation) ∧
    (∀ (t : Trace) (n : TraceNode) (rest : List TraceNode) (sp : APMSpan) (k v : String),
        t.nodes = n :: rest → n.span = some sp → assocFind sp.tags.own k = some v →
        ∃ n2 sp2, (traceDecorator md t).nodes = n2 :: rest ∧ n2.span = some sp2 ∧
          assocFind sp2.tags.own k = some v) ∧
    (∀ (t : Trace) (n : TraceNode) (rest : List TraceNode) (sp : APMSpan) (sName : String),
        t.nodes = n :: rest → n.span = some sp →
        md.serviceName = some sName → jsTruthyStr md.serviceName = true →
        sp.tags.hasOwn PROP_SERVICE_NAME = false →
        ∃ n2 sp2, (traceDecorator md t).nodes = n2 :: rest ∧ n2.span = some sp2 ∧
          assocFind sp2.tags.own PROP_SERVICE_NAME = some sName) ∧
    (∀ (t : Trace) (n : TraceNode) (rest : List TraceNode) (sp : APMSpan) (bStamp : String),
        t.nodes = n :: rest → n.span = some sp →
        md.buildStamp = some bStamp → jsTruthyStr md.buildStamp = true →
        sp.tags.hasOwn PROP_BUILD_STAMP = false →
        ∃ n2 sp2, (traceDecorator md t).nodes = n2 :: rest ∧ n2.span = some sp2 ∧
          assocFind sp2.tags.own PROP_BUILD_STAMP = some bStamp) ∧
    (∀ t : Trace, traceDecorator md (traceDecorator md t) = traceDecorator md t) := by
  refine ⟨traceDecorator_nil md, traceDecorator_no_span md, ?_, ?_, ?_, ?_,
    traceDecorator_idem md⟩
  · intro t n rest ht
    rcases hs : n.span with _ | sp
    · rw [traceDecorator_no_span md t n rest ht hs]
      exact ⟨n, ht, rfl, rfl, rfl⟩
    · rw [traceDecorator_cons_span md t n rest sp ht hs]
      exact ⟨_, rfl, rfl, rfl, rfl⟩
  · intro t n rest sp k v ht hs h
    refine ⟨{ n with span := some (decorateSpan md sp) }, decorateSpan md sp, ?_, rfl,
      decorateSpan_preserves_own md sp k v h⟩
    rw [traceDecorator_cons_span md t n rest sp ht hs]
  · intro t n rest sp sName ht hs hmd hb habs
    refine ⟨{ n with span := some (decorateSpan md sp) }, decorateSpan md sp, ?_, rfl,
      decorateSpan_sets_service md sp sName hmd hb habs⟩
    rw [traceDecorator_cons_span md t n rest sp ht hs]
  · intro t n rest sp bStamp ht hs hmd hb habs
    refine ⟨{ n with span := some (decorateSpan md sp) }, decorateSpan md sp, ?_, rfl,
      decorateSpan_sets_build md sp bStamp hmd hb habs⟩
    rw [traceDecorator_cons_span md t n rest sp ht hs]

/-- Witness for C7: the spec's decoration scenario — a root span that already
carries service tag "checkout" keeps it when decorated with service name
"other". -/
theorem C7_trace_decorator_witness :
    ∃ n2 sp2,
      (traceDecorator { serviceName := some "other" }
        { nodes := [{ span := some { tags := { own := [(PROP_SERVICE_NAME, "checkout")] } } }] }).nodes
        = n2 :: [] ∧
      n2.span = some sp2 ∧
      assocFind sp2.tags.own PROP_SERVICE_NAME = some "checkout" :=
  (C7_trace_decorator { serviceName := some "other" }).2.2.2.1
    { nodes := [{ span := some { tags := { own := [(PROP_SERVICE_NAME, "checkout")] } } }] }
    { span := some { tags := { own := [(PROP_SERVICE_NAME, "checkout")] } } } []
    { tags := { own := [(PROP_SERVICE_NAME, "checkout")] } } PROP_SERVICE_NAME "checkout"
    rfl rfl (by simp [assocFind])

/-- C9 (as stated) is false: a caller-supplied `fields.operationName` is not
used — `startSpan("A", {operationName: "X"})` produces a span whose operation
name is "A", not "X". -/
theorem C9_operation_name_counterexample :
    (startSpan "A" (some { operationName := some "X" })).1.getOperationName = some "A" ∧
    (startSpan "A" (some { operationName := some "X" })).1.getOperationName ≠ some "X" := by
  exact ⟨rfl, by decide⟩

/-- C9 (amended): the span produced by `startSpan(name, fields)` always has
operation name `name`; `startSpan` unconditionally overwrites
`fields.operationName` with `name`, so a caller-supplied operation name is
never used. -/
theorem C9_operation_name_amended (name : String) (fields : Option FieldsObj) :
    (startSpan name fields).1.getOperationName = some name := rfl

/-- C10: `startSpan` mutates the caller-supplied fields object in place,
setting its `operationName` to `name` before handing that same object to span
construction; through the caller's own reference (an index into the store) the
mutation is visible after the call, every other object in the store is
untouched, and no other property of the fields object changes. -/
theorem C10_startSpan_mutates_fields (name : String) (h : FieldsHeap) (i : Nat)
    (f : FieldsObj) (hf : h.get? i = some f) :
    (startSpanOnHeap name h i).2.get? i = some { f with operationName := some name } ∧
    (∀ j, j ≠ i → (startSpanOnHeap name h i).2.get? j = h.get? j) ∧
    (startSpanOnHeap name h i).1.fields = { f with operationName := some name } ∧
    ({ f with operationName := some name } : FieldsObj).childOf = f.childOf ∧
    ({ f with operationName := some name } : FieldsObj).tags = f.tags ∧
    ({ f with operationName := some name } : FieldsObj).startTime = f.startTime := by
  have hlt : i < h.length := by
    by_contra hnl
    push_neg at hnl
    rw [List.get?_eq_none.mpr hnl] at hf
    cases hf
  have hf2 : h[i]? = some f := by
    rw [← List.get?_eq_getElem?]
    exact hf
  refine ⟨?_, ?_, ?_, rfl, rfl, rfl⟩
  · simp only [startSpanOnHeap, hf, startSpan]
    exact List.get?_set_eq_of_lt _ hlt
  · intro j hj
    simp only [startSpanOnHeap, hf, startSpan]
    exact List.get?_set_ne _ h (fun e => hj e.symm)
  · simp [startSpanOnHeap, hf, hf2, startSpan]

/-- Witness for C10 at a two-object store whose second object carries a
caller-supplied operation name, tags and start time. -/
theorem C10_startSpan_mutates_fields_witness :
    (startSpanOnHeap "A" [{}, { operationName := some "X", tags := [("k", "v")], startTime := some 4 }] 1).2.get? 1
      = some { operationName := some "A", tags := [("k", "v")], startTime := some 4 } ∧
    (∀ j, j ≠ 1 →
      (startSpanOnHeap "A" [{}, { operationName := some "X", tags := [("k", "v")], startTime := some 4 }] 1).2.get? j
        = ([{}, { operationName := some "X", tags := [("k", "v")], startTime := some 4 }] : FieldsHeap).get? j) ∧
    (startSpanOnHeap "A" [{}, { operationName := some "X", tags := [("k", "v")], startTime := some 4 }] 1).1.fields
      = { operationName := some "A", tags := [("k", "v")], startTime := some 4 } ∧
    ({ ({ operationName := some "X", tags := [("k", "v")], startTime := some 4 } : FieldsObj) with operationName := some "A" } : FieldsObj).childOf
      = ({ operationName := some "X", tags := [("k", "v")], startTime := some 4 } : FieldsObj).childOf ∧
    ({ ({ operationName := some "X", tags := [("k", "v")], startTime := some 4 } : FieldsObj) with operationName := some "A" } : FieldsObj).tags
      = ({ operationName := some "X", tags := [("k", "v")], startTime := some 4 } : FieldsObj).tags ∧
    ({ ({ operationName := some "X", tags := [("k", "v")], startTime := some 4 } : FieldsObj) with operationName := some "A" } : FieldsObj).startTime
      = ({ operationName := some "X", tags := [("k", "v")], startTime := some 4 } : FieldsObj).startTime :=
  C10_startSpan_mutates_fields "A"
    [{}, { operationName := some "X", tags := [("k", "v")], startTime := some 4 }] 1
    { operationName := some "X", tags := [("k", "v")], startTime := some 4 } rfl
